import Mathlib

/-!
Verification development for the AlertMate emergency-triage system.

The pipeline under study: language detection → lexical classification →
urgency scoring → facility resolution → response shaping, plus the
frontend chat and admin components.  Functions present in the repository
(`should_use_minimal_response`, `getPriorityColor`, `ChatPage.sendMessage`)
are embedded directly from their source; components whose implementation
files are not part of the snapshot are modelled from the specification,
as marked in each doc comment.
-/

namespace AlertMate

/-! ## String utilities -/

/-- Boolean substring test on character lists: `containsSub n h` is `true`
iff `n` occurs as a contiguous run inside `h`.  This mirrors the Python
`in` / partial-match technique the classifier and scorer use. -/
def containsSub (needle : List Char) : List Char → Bool
  | [] => needle.isEmpty
  | c :: t => needle.isPrefixOf (c :: t) || containsSub needle (t)

/-- Substring test on strings. -/
def strContains (haystack needle : String) : Bool :=
  containsSub needle.toList haystack.toList

/-- Whitespace set of the JavaScript `String.prototype.trim`
(ASCII whitespace plus the common Unicode space separators). -/
def jsWhitespace : List Char :=
  [Char.ofNat 9, Char.ofNat 10, Char.ofNat 11, Char.ofNat 12, Char.ofNat 13,
   Char.ofNat 32, Char.ofNat 0xA0, Char.ofNat 0x1680,
   Char.ofNat 0x2000, Char.ofNat 0x2001, Char.ofNat 0x2002, Char.ofNat 0x2003,
   Char.ofNat 0x2004, Char.ofNat 0x2005, Char.ofNat 0x2006, Char.ofNat 0x2007,
   Char.ofNat 0x2008, Char.ofNat 0x2009, Char.ofNat 0x200A,
   Char.ofNat 0x2028, Char.ofNat 0x2029, Char.ofNat 0x202F,
   Char.ofNat 0x205F, Char.ofNat 0x3000, Char.ofNat 0xFEFF]

/-- `true` iff `c` is whitespace for the purposes of JavaScript `trim`. -/
def isJsWhitespace (c : Char) : Bool := jsWhitespace.contains c

/-- JavaScript `String.prototype.trim`: drop leading and trailing
whitespace characters. -/
def jsTrim (s : String) : String :=
  String.mk (((s.toList.dropWhile isJsWhitespace).reverse.dropWhile
    isJsWhitespace).reverse)

/-! ## Response Shaper: network-aware mode selection

Embedded from `should_use_minimal_response` and `detect_network_quality`
as recorded in the network-optimization document (src/unnamed/part_002). -/

/-- Network quality levels reported by the client. -/
inductive NetworkQuality
  | slow
  | medium
  | fast
  | unknown
deriving DecidableEq, Repr

/-- Embedded from src/unnamed/part_002 (`should_use_minimal_response`):
returns `true` when the reply should use minimal mode.  The branches are
transcribed exactly: slow → minimal; medium with `urgency >= 2` →
minimal; unknown → minimal; otherwise standard. -/
def should_use_minimal_response (network_quality : NetworkQuality)
    (urgency : Nat) : Bool :=
  if network_quality = NetworkQuality.slow then
    true
  else if network_quality = NetworkQuality.medium ∧ urgency ≥ 2 then
    true
  else if network_quality = NetworkQuality.unknown then
    true
  else
    false

/-- The specification/claim wording for minimal-mode selection: minimal
exactly when the hint is `slow`, or `unknown`, or `medium` with urgency
at most 2 (urgency 1 is the most critical tier). -/
def minimalModeSpec (network_quality : NetworkQuality) (urgency : Nat) : Prop :=
  network_quality = NetworkQuality.slow ∨
  network_quality = NetworkQuality.unknown ∨
  (network_quality = NetworkQuality.medium ∧ urgency ≤ 2)

instance (nq : NetworkQuality) (u : Nat) : Decidable (minimalModeSpec nq u) := by
  unfold minimalModeSpec
  infer_instance

/-! ## Admin page priority colors

Embedded from src/Frontend/src/components/AdminPage.jsx. -/

/-- Embedded from `getPriorityColor` in AdminPage.jsx: the CSS classes
used to render a queue task's priority badge. -/
def getPriorityColor (priority : Nat) : String :=
  match priority with
  | 1 => "bg-green-500/20 text-green-400"
  | 2 => "bg-yellow-500/20 text-yellow-400"
  | 3 => "bg-red-500/20 text-red-400"
  | _ => "bg-gray-500/20 text-gray-400"

/-- Documented severity order of urgency values (spec glossary: integer 1
is critical, 3 is informational): `a` is strictly more severe than `b`
iff `a < b`. -/
def moreSevere (a b : Nat) : Prop := a < b

/-! ## Chat page request construction

Embedded from `ChatPage.sendMessage` in src/unnamed/part_003. -/

/-- The signed-in user record as the chat page sees it (registered
coordinates are fixed at signup). -/
structure FrontendUser where
  user_id : String
  lat : Int
  lon : Int
deriving DecidableEq, Repr

/-- The JSON body `ChatPage.sendMessage` posts to `/api/v1/chat`. -/
structure ChatRequest where
  userid : String
  user_query : String
  user_location : String
  lat : Int
  lon : Int
  lang : String
deriving DecidableEq, Repr

/-- Embedded from ChatPage.jsx `sendMessage` (request construction):
`userid` is the user id, `user_query` the trimmed message,
`user_location` the template string of the registered coordinates,
`lat`/`lon` the registered coordinates, and `lang` the literal 'en'. -/
def buildChatRequest (user : FrontendUser) (userMessage : String) : ChatRequest :=
  { userid := user.user_id
    user_query := userMessage
    user_location := toString user.lat ++ ", " ++ toString user.lon
    lat := user.lat
    lon := user.lon
    lang := "en" }

/-- Embedded from ChatPage.jsx `sendMessage`: the guard
`if (!inputMessage.trim() || loading) return;` aborts before any request
is built; otherwise the trimmed message is sent.  `none` means no
request reaches the chat service (and hence the pipeline is never
invoked). -/
def sendMessage (user : FrontendUser) (inputMessage : String)
    (loading : Bool) : Option ChatRequest :=
  if jsTrim inputMessage = "" || loading then
    none
  else
    some (buildChatRequest user (jsTrim inputMessage))

/-! ## Classification pipeline

Modelled from the spec: the implementation files
(`app/utils/urdu_language.py`, `app/agents/front_agent.py`) are not part
of the snapshot — only their documentation and recorded test results
are.  The definitions below follow §4.2–§4.3 of the specification and
the keyword/indicator reference lists recorded in the repository
documents. -/

/-- Language tags as the detector reports them (source names `urdu`,
`roman_urdu`, `english`, `mixed`; the spec calls them script, latin,
default and blended). -/
inductive Lang
  | urdu
  | roman_urdu
  | english
  | mixed
deriving DecidableEq, Repr

/-- Emergency service categories. -/
inductive Category
  | medical
  | police
  | disaster
  | general
deriving DecidableEq, Repr

/-- Vocabulary tag of a keyword entry (spec §3: script, latin or shared). -/
inductive KwLang
  | script
  | latin
  | shared
deriving DecidableEq, Repr

/-- Modelled from the spec: a KeywordEntry of the classifier's
multilingual keyword table. -/
structure KeywordEntry where
  term : String
  language : KwLang
  category : Category
  subservice : Option String
deriving DecidableEq, Repr

/-- ASCII lowercase of a string (script characters are untouched, as the
spec requires for normalization). -/
def lowerStr (s : String) : String :=
  String.mk (s.toList.map Char.toLower)

/-- Modelled from the spec: the classifier's keyword table, loaded once
at startup, populated with the emergency keyword reference lists from
the repository's Urdu-support document. -/
def keywordTable : List KeywordEntry :=
  [⟨"ایمبولینس", KwLang.script, Category.medical, some "ambulance_dispatch"⟩,
   ⟨"ہسپتال", KwLang.script, Category.medical, none⟩,
   ⟨"ڈاکٹر", KwLang.script, Category.medical, none⟩,
   ⟨"درد", KwLang.script, Category.medical, none⟩,
   ⟨"خون", KwLang.script, Category.medical, none⟩,
   ⟨"بے ہوش", KwLang.script, Category.medical, none⟩,
   ⟨"ambulance", KwLang.latin, Category.medical, some "ambulance_dispatch"⟩,
   ⟨"hospital", KwLang.latin, Category.medical, none⟩,
   ⟨"doctor", KwLang.latin, Category.medical, none⟩,
   ⟨"khoon", KwLang.latin, Category.medical, none⟩,
   ⟨"پولیس", KwLang.script, Category.police, some "police_dispatch"⟩,
   ⟨"ڈکیتی", KwLang.script, Category.police, none⟩,
   ⟨"چوری", KwLang.script, Category.police, none⟩,
   ⟨"حملہ", KwLang.script, Category.police, none⟩,
   ⟨"بندوق", KwLang.script, Category.police, none⟩,
   ⟨"police", KwLang.latin, Category.police, some "police_dispatch"⟩,
   ⟨"dakaiti", KwLang.latin, Category.police, none⟩,
   ⟨"chori", KwLang.latin, Category.police, none⟩,
   ⟨"hamla", KwLang.latin, Category.police, none⟩,
   ⟨"آگ", KwLang.script, Category.disaster, some "fire_response"⟩,
   ⟨"سیلاب", KwLang.script, Category.disaster, none⟩,
   ⟨"زلزلہ", KwLang.script, Category.disaster, none⟩,
   ⟨"طوفان", KwLang.script, Category.disaster, none⟩,
   ⟨"fire", KwLang.latin, Category.disaster, some "fire_response"⟩,
   ⟨"sailab", KwLang.latin, Category.disaster, none⟩,
   ⟨"zalzala", KwLang.latin, Category.disaster, none⟩,
   ⟨"toofan", KwLang.latin, Category.disaster, none⟩]

/-- Modelled from the spec: critical-tier urgency indicators per
language (independent of the category tables), from the Urdu-support
document's urgency reference. -/
def criticalIndicators : Lang → List String
  | Lang.urdu => ["بے ہوش", "سانس نہیں", "شدید خون"]
  | Lang.roman_urdu => ["be hosh", "behosh", "saans nahi", "khoon beh"]
  | Lang.english => ["unconscious", "not breathing", "bleeding heavily"]
  | Lang.mixed =>
      ["بے ہوش", "سانس نہیں", "شدید خون", "be hosh", "behosh", "saans nahi",
       "khoon beh", "unconscious", "not breathing", "bleeding heavily"]

/-- Modelled from the spec: serious-tier urgency indicators per
language. -/
def seriousIndicators : Lang → List String
  | Lang.urdu => ["ٹوٹ", "فریکچر", "ڈکیتی", "حملہ"]
  | Lang.roman_urdu => ["toot", "fracture", "dakaiti", "hamla", "broken"]
  | Lang.english => ["broken", "fracture", "robbery", "attack"]
  | Lang.mixed =>
      ["ٹوٹ", "فریکچر", "ڈکیتی", "حملہ", "toot", "fracture", "dakaiti",
       "hamla", "broken", "robbery", "attack"]

/-- Modelled from the spec: the curated per-language greeting phrase
sets (Urdu, Roman Urdu and English, per the greeting-detection tests). -/
def greetingPhrases : Lang → List String
  | Lang.urdu => ["سلام علیکم", "السلام علیکم"]
  | Lang.roman_urdu => ["salaam alaikum", "salam alaikum", "assalam"]
  | Lang.english => ["hello", "hi there", "good morning"]
  | Lang.mixed => []

/-- All greeting phrases of every language, flattened. -/
def allGreetings : List String :=
  greetingPhrases Lang.urdu ++ greetingPhrases Lang.roman_urdu ++
    greetingPhrases Lang.english

/-- The read-only tables the classifier and scorer consult; loaded once
at process start and shared, never mutated (spec §5, §9). -/
structure ClassifierTables where
  greetings : List String
  entries : List KeywordEntry
  critical : Lang → List String
  serious : Lang → List String

/-- The concrete startup configuration. -/
def initTables : ClassifierTables :=
  { greetings := allGreetings
    entries := keywordTable
    critical := criticalIndicators
    serious := seriousIndicators }

/-- `true` iff some phrase of `phrases` occurs in `text` (normalized
substring matching, spec §4.2/§4.3). -/
def anyPhraseIn (phrases : List String) (text : String) : Bool :=
  phrases.any (fun p => strContains (lowerStr text) (lowerStr p))

/-- Modelled from the spec (§4.3): `true` iff a critical-tier indicator
for the given language matches the text. -/
def hasCriticalIndicator (lang : Lang) (text : String) : Bool :=
  anyPhraseIn (criticalIndicators lang) text

/-- Modelled from the spec (§4.3): `true` iff a serious-tier indicator
for the given language matches the text. -/
def hasSeriousIndicator (lang : Lang) (text : String) : Bool :=
  anyPhraseIn (seriousIndicators lang) text

/-- Modelled from the spec (§4.3, Urgency Scorer): scan critical-tier
indicators first — any match fixes urgency at 1; otherwise scan
serious-tier indicators — any match fixes urgency at 2; otherwise
default to 3. -/
def detect_urgency (lang : Lang) (text : String) : Nat :=
  if hasCriticalIndicator lang text then 1
  else if hasSeriousIndicator lang text then 2
  else 3

/-- Modelled from the spec (§4.2): greeting detection over the curated
greeting sets; runs before keyword scanning. -/
def is_greeting (text : String) : Bool :=
  anyPhraseIn allGreetings text

/-- The classifier's immutable per-request output (spec §3). -/
structure ClassificationResult where
  language : Lang
  category : Category
  subservice : String
  keywords : List String
  urgency : Nat
deriving DecidableEq, Repr

/-- `true` iff the entry's term occurs in the normalized text. -/
def entryMatches (text : String) (e : KeywordEntry) : Bool :=
  strContains (lowerStr text) (lowerStr e.term)

/-- Entries of the table whose term matches the text.  The spec orders
the recorded keywords by first occurrence in the text; no claim under
verification depends on the order, and the table order is used here. -/
def matchedEntries (entries : List KeywordEntry) (text : String) :
    List KeywordEntry :=
  entries.filter (entryMatches text)

/-- `true` iff some matching entry carries the given category. -/
def hasCategoryMatch (entries : List KeywordEntry) (text : String)
    (c : Category) : Bool :=
  (matchedEntries entries text).any (fun e => e.category = c)

/-- Modelled from the spec (§4.2): category priority
medical > police > disaster > general; the highest-priority category
with at least one match wins, defaulting to `general`. -/
def pickCategory (entries : List KeywordEntry) (text : String) : Category :=
  if hasCategoryMatch entries text Category.medical then Category.medical
  else if hasCategoryMatch entries text Category.police then Category.police
  else if hasCategoryMatch entries text Category.disaster then Category.disaster
  else Category.general

/-- Modelled from the spec (§4.2): subservice of the first matching
entry for the winning category, defaulting to the generic
"inquiry" tag. -/
def pickSubservice (entries : List KeywordEntry) (text : String)
    (c : Category) : String :=
  match (matchedEntries entries text).filter (fun e => e.category = c) with
  | [] => "inquiry"
  | e :: _ => e.subservice.getD "inquiry"

/-- Modelled from the spec (§4.2 with §4.3): the heuristic classifier
over explicit tables.  A greeting short-circuits the whole
classification to `general`/informational (urgency 3) regardless of any
other keyword in the message; otherwise keywords determine category and
subservice and the urgency scorer runs on the same text. -/
def classifyT (t : ClassifierTables) (lang : Lang) (text : String) :
    ClassificationResult :=
  if anyPhraseIn t.greetings text then
    { language := lang
      category := Category.general
      subservice := "inquiry"
      keywords := []
      urgency := 3 }
  else
    let cat := pickCategory t.entries text
    { language := lang
      category := cat
      subservice := pickSubservice t.entries text cat
      keywords := (matchedEntries t.entries text).map (fun e => e.term)
      urgency :=
        if anyPhraseIn (t.critical lang) text then 1
        else if anyPhraseIn (t.serious lang) text then 2
        else 3 }

/-- The pipeline on the startup tables. -/
def classify_message (lang : Lang) (text : String) : ClassificationResult :=
  classifyT initTables lang text

/-- One classification run with the shared read-only state threaded
explicitly: the result together with the state as left behind by the
run. -/
def runPipeline (t : ClassifierTables) (lang : Lang) (text : String) :
    ClassificationResult × ClassifierTables :=
  (classifyT t lang text, t)

/-! ## Facility Resolver

Modelled from the spec: the implementation file
(`hybrid_service_discovery.py`) is not part of the snapshot — only its
documentation is.  The definitions follow §4.5 and §7: three ordered
tiers, the live and local tiers may fail (timeout, provider error,
empty result, rate limit), the static tier is the compiled-in
reliability floor. -/

/-- Fallback tier a candidate came from. -/
inductive Tier
  | live
  | local
  | static
deriving DecidableEq, Repr

/-- A facility candidate (spec §3): name, coordinates, distance or ETA,
source tier and optional rating. -/
structure FacilityCandidate where
  name : String
  lat : Int
  lon : Int
  distance_or_eta : Nat
  source_tier : Tier
  rating : Option Nat
deriving DecidableEq, Repr

/-- Outcome of the live or local tier for one request: `none` models a
tier failure (timeout, error or rate limit); the spec also treats an
empty successful result as a tier failure, handled below. -/
abbrev TierOutcome := Option (List FacilityCandidate)

/-- A degraded tier contributes only when it succeeded with a non-empty
candidate list; a failure or an empty result is treated identically
(spec §4.5). -/
def tierSuccess : TierOutcome → Option (List FacilityCandidate)
  | some (c :: cs) => some (c :: cs)
  | _ => none

/-- Modelled from the spec (§4.5/§7): the static tier — the compiled-in
per-category contact list is the reliability floor; a category with no
static entry is the one fatal, reported configuration error. -/
def staticResolve (staticTable : Category → List FacilityCandidate)
    (category : Category) : Except String (List FacilityCandidate) :=
  match staticTable category with
  | [] => Except.error "no static fallback configured for category"
  | c :: cs => Except.ok (c :: cs)

/-- Modelled from the spec (§4.5, §9): strict tier order live → local →
static, iterated as a chain of fallback strategies; degraded-tier
failures fall through and are never surfaced. -/
def resolve_facilities (staticTable : Category → List FacilityCandidate)
    (liveResult localResult : TierOutcome) (category : Category) :
    Except String (List FacilityCandidate) :=
  match tierSuccess liveResult with
  | some l => Except.ok l
  | none =>
    match tierSuccess localResult with
    | some l => Except.ok l
    | none => staticResolve staticTable category

/-- Modelled from the spec (§6): the compiled-in static contact table,
one always-available contact per category. -/
def defaultStaticTable : Category → List FacilityCandidate
  | Category.medical =>
      [⟨"Edhi Ambulance 115", 24, 67, 0, Tier.static, none⟩]
  | Category.police =>
      [⟨"Police Emergency 15", 24, 67, 0, Tier.static, none⟩]
  | Category.disaster =>
      [⟨"Rescue 1122", 24, 67, 0, Tier.static, none⟩]
  | Category.general =>
      [⟨"AlertMate Helpdesk", 24, 67, 0, Tier.static, none⟩]

/-! ## Single-flight cache collapsing

Modelled from the spec: §5 and §9 require a single-flight-per-key
primitive — a mapping from cache key to an in-flight call that
concurrent callers await.  The state below tracks one cache key; each
requester arrival and the completion of the live call are atomic steps,
and arrivals may interleave arbitrarily before completion. -/

/-- Per-key single-flight state: the cached value if resolved, whether a
live call is in flight, the requesters awaiting it, how many live calls
were issued for this key, and (requester, value) pairs delivered. -/
structure SingleFlightState where
  cached : Option Nat
  inflight : Bool
  waiters : List Nat
  liveCalls : Nat
  delivered : List (Nat × Nat)
deriving DecidableEq, Repr

/-- The uncached initial state of a key: no cache entry, no in-flight
call, no waiters, no live call issued. -/
def sfInit : SingleFlightState :=
  { cached := none, inflight := false, waiters := [], liveCalls := 0,
    delivered := [] }

/-- Modelled from the spec (§5/§9): a requester arrives for the key.  A
cache hit is answered at once; with a call already in flight the
requester joins the waiters; otherwise exactly one live call is issued
and the requester becomes its first waiter. -/
def sfArrive (s : SingleFlightState) (rid : Nat) : SingleFlightState :=
  match s.cached with
  | some v => { s with delivered := (rid, v) :: s.delivered }
  | none =>
    if s.inflight then
      { s with waiters := rid :: s.waiters }
    else
      { s with inflight := true, waiters := [rid],
               liveCalls := s.liveCalls + 1 }

/-- A sequence of arrivals processed in order (any interleaving of same-
key requests before the call completes takes this form, each step being
atomic). -/
def sfArriveAll (s : SingleFlightState) (rids : List Nat) : SingleFlightState :=
  rids.foldl sfArrive s

/-- Modelled from the spec (§5/§9): the single in-flight live call
completes with value `v`; the value is cached and every waiter receives
that same value. -/
def sfComplete (s : SingleFlightState) (v : Nat) : SingleFlightState :=
  { s with cached := some v, inflight := false, waiters := [],
           delivered := s.waiters.map (fun r => (r, v)) ++ s.delivered }

/-! ## Theorems -/

/-- A successful degraded tier never contributes an empty candidate
list. -/
lemma tierSuccess_ne_nil (o : TierOutcome) (l : List FacilityCandidate)
    (h : tierSuccess o = some l) : l ≠ [] := by
  rcases o with _ | ⟨_ | ⟨c, cs⟩⟩ <;> simp [tierSuccess] at h
  exact h ▸ (by simp)

/-- The static tier yields a non-empty ok result whenever the category
has at least one configured static entry. -/
lemma staticResolve_ok (staticTable : Category → List FacilityCandidate)
    (category : Category) (h : staticTable category ≠ []) :
    ∃ l, staticResolve staticTable category = Except.ok l ∧ l ≠ [] := by
  rcases hst : staticTable category with _ | ⟨c, cs⟩
  · exact absurd hst h
  · exact ⟨c :: cs, by simp [staticResolve, hst], by simp⟩

/-- Core resolver guarantee: with at least one static entry for the
category, resolution returns a non-empty candidate list for every
combination of degraded-tier outcomes. -/
lemma resolve_ok_of_static_ne
    (staticTable : Category → List FacilityCandidate) (category : Category)
    (h : staticTable category ≠ [])
    (liveResult localResult : TierOutcome) :
    ∃ l, resolve_facilities staticTable liveResult localResult category =
        Except.ok l ∧ l ≠ [] := by
  unfold resolve_facilities
  rcases hl : tierSuccess liveResult with _ | l
  · rcases hm : tierSuccess localResult with _ | m
    · exact staticResolve_ok staticTable category h
    · exact ⟨m, rfl, tierSuccess_ne_nil _ _ hm⟩
  · exact ⟨l, rfl, tierSuccess_ne_nil _ _ hl⟩

/-- C1: for every input text and language tag the Urgency Scorer returns
a value in {1,2,3}; a critical-tier match fixes the result at 1
regardless of any co-occurring serious-tier match; with no critical but
some serious match the result is 2; with neither it is 3. -/
theorem urgency_scorer_range_and_precedence (lang : Lang) (text : String) :
    (detect_urgency lang text = 1 ∨ detect_urgency lang text = 2 ∨
      detect_urgency lang text = 3) ∧
    (hasCriticalIndicator lang text = true → detect_urgency lang text = 1) ∧
    (hasCriticalIndicator lang text = false →
      hasSeriousIndicator lang text = true → detect_urgency lang text = 2) ∧
    (hasCriticalIndicator lang text = false →
      hasSeriousIndicator lang text = false → detect_urgency lang text = 3) := by
  unfold detect_urgency
  cases hc : hasCriticalIndicator lang text <;>
    cases hs : hasSeriousIndicator lang text <;> simp [hc, hs]

/-- C1 witness: a concrete Urdu text containing a critical indicator
(بے ہوش, unconscious) and a serious indicator (حملہ, attack) scores
urgency 1. -/
theorem urgency_scorer_witness :
    hasCriticalIndicator Lang.urdu "مریض بے ہوش ہے اور حملہ ہوا" = true ∧
    hasSeriousIndicator Lang.urdu "مریض بے ہوش ہے اور حملہ ہوا" = true ∧
    detect_urgency Lang.urdu "مریض بے ہوش ہے اور حملہ ہوا" = 1 :=
  ⟨rfl, rfl,
   (urgency_scorer_range_and_precedence Lang.urdu
     "مریض بے ہوش ہے اور حملہ ہوا").2.1 rfl⟩

/-- C2: for every static table giving the category at least one entry
and every outcome of the live and local tiers — including both tiers
failing — the Facility Resolver returns a non-empty candidate list. -/
theorem resolver_static_guarantee
    (staticTable : Category → List FacilityCandidate) (category : Category)
    (h : staticTable category ≠ [])
    (liveResult localResult : TierOutcome) :
    ∃ l, resolve_facilities staticTable liveResult localResult category =
        Except.ok l ∧ l ≠ [] :=
  resolve_ok_of_static_ne staticTable category h liveResult localResult

/-- C2 witness: with the compiled-in static table and both degraded
tiers failing (`none`), resolving the medical category still returns a
non-empty candidate list. -/
theorem resolver_static_guarantee_witness :
    defaultStaticTable Category.medical ≠ [] ∧
    ∃ l, resolve_facilities defaultStaticTable none none Category.medical =
        Except.ok l ∧ l ≠ [] :=
  ⟨by simp [defaultStaticTable],
   resolver_static_guarantee defaultStaticTable Category.medical
     (by simp [defaultStaticTable]) none none⟩

/-- C3 (code bug): the code's `should_use_minimal_response` keeps the
standard response on a medium connection at urgency 1 — the most
critical tier — and switches to minimal at urgency 3, exactly inverting
the spec's `medium ∧ urgency ≤ 2` rule; the slow, unknown and fast
branches agree with the spec. -/
theorem minimal_response_medium_branch_inverted :
    should_use_minimal_response NetworkQuality.medium 1 = false ∧
    minimalModeSpec NetworkQuality.medium 1 ∧
    should_use_minimal_response NetworkQuality.medium 3 = true ∧
    ¬ minimalModeSpec NetworkQuality.medium 3 ∧
    should_use_minimal_response NetworkQuality.slow 5 = true ∧
    should_use_minimal_response NetworkQuality.unknown 3 = true ∧
    should_use_minimal_response NetworkQuality.fast 1 = false := by
  decide

/-- C4: whenever a curated greeting phrase fires, classification
short-circuits to category `general`, the generic inquiry subservice and
informational urgency 3, regardless of any other keyword in the
message. -/
theorem greeting_short_circuits_classification (lang : Lang) (text : String)
    (h : is_greeting text = true) :
    (classify_message lang text).category = Category.general ∧
    (classify_message lang text).urgency = 3 ∧
    (classify_message lang text).subservice = "inquiry" := by
  have h2 : anyPhraseIn initTables.greetings text = true := h
  unfold classify_message classifyT
  simp [h2]

/-- C4 witness: the greeting سلام علیکم classifies as general/3, and a
message carrying both the greeting and the medical keyword ایمبولینس
still classifies as general/3. -/
theorem greeting_short_circuit_witness :
    strContains (lowerStr "سلام علیکم ایمبولینس چاہیے")
      (lowerStr "ایمبولینس") = true ∧
    is_greeting "سلام علیکم ایمبولینس چاہیے" = true ∧
    (classify_message Lang.urdu "سلام علیکم ایمبولینس چاہیے").category =
      Category.general ∧
    (classify_message Lang.urdu "سلام علیکم ایمبولینس چاہیے").urgency = 3 ∧
    is_greeting "سلام علیکم" = true ∧
    (classify_message Lang.urdu "سلام علیکم").category = Category.general ∧
    (classify_message Lang.urdu "سلام علیکم").urgency = 3 :=
  ⟨rfl, rfl,
   (greeting_short_circuits_classification Lang.urdu
     "سلام علیکم ایمبولینس چاہیے" rfl).1,
   (greeting_short_circuits_classification Lang.urdu
     "سلام علیکم ایمبولینس چاہیے" rfl).2.1, rfl,
   (greeting_short_circuits_classification Lang.urdu "سلام علیکم" rfl).1,
   (greeting_short_circuits_classification Lang.urdu "سلام علیکم" rfl).2.1⟩

/-- C5: a degraded-tier error is never surfaced — the resolver can
produce a hard, reported failure if and only if the requested category
has zero static fallback entries configured. -/
theorem resolver_failure_iff_no_static
    (staticTable : Category → List FacilityCandidate) (category : Category) :
    (∃ liveResult localResult e,
        resolve_facilities staticTable liveResult localResult category =
          Except.error e)
    ↔ staticTable category = [] := by
  constructor
  · rintro ⟨live, loc, e, h⟩
    by_contra hne
    obtain ⟨l, hok, -⟩ := resolve_ok_of_static_ne staticTable category hne live loc
    rw [hok] at h
    cases h
  · intro h
    refine ⟨none, none, "no static fallback configured for category", ?_⟩
    simp [resolve_facilities, tierSuccess, staticResolve, h]

/-- C5 witness: with a table that has zero static entries, the police
category produces a reported error (via the theorem's reverse
direction). -/
theorem resolver_failure_witness :
    ∃ liveResult localResult e,
      resolve_facilities (fun _ => []) liveResult localResult Category.police =
        Except.error e :=
  (resolver_failure_iff_no_static (fun _ => []) Category.police).mpr rfl

/-- C6: the classification pipeline is deterministic and stateless — two
runs on the same text and language tag give an identical
ClassificationResult field by field, and the shared tables are left
unchanged by each run. -/
theorem classification_idempotent (t : ClassifierTables) (lang : Lang)
    (text : String) :
    runPipeline t lang text = runPipeline (runPipeline t lang text).2 lang text ∧
    (runPipeline t lang text).2 = t ∧
    (runPipeline (runPipeline t lang text).2 lang text).2 = t ∧
    (runPipeline t lang text).1.language =
      (runPipeline (runPipeline t lang text).2 lang text).1.language ∧
    (runPipeline t lang text).1.category =
      (runPipeline (runPipeline t lang text).2 lang text).1.category ∧
    (runPipeline t lang text).1.subservice =
      (runPipeline (runPipeline t lang text).2 lang text).1.subservice ∧
    (runPipeline t lang text).1.keywords =
      (runPipeline (runPipeline t lang text).2 lang text).1.keywords ∧
    (runPipeline t lang text).1.urgency =
      (runPipeline (runPipeline t lang text).2 lang text).1.urgency :=
  ⟨rfl, rfl, rfl, rfl, rfl, rfl, rfl, rfl⟩

/-- While the key's call is in flight and uncached, further arrivals
only join the waiter list: cache, flight flag, call count and delivered
results are untouched. -/
lemma sfArriveAll_joins_waiters (rids : List Nat) :
    ∀ s : SingleFlightState, s.cached = none → s.inflight = true →
      sfArriveAll s rids = { s with waiters := rids.reverse ++ s.waiters } := by
  induction rids with
  | nil => intro s hc hi; simp [sfArriveAll]
  | cons r rest ih =>
    intro s hc hi
    have harr : sfArrive s r = { s with waiters := r :: s.waiters } := by
      unfold sfArrive
      rw [hc]
      simp [hi]
    have hstep : sfArriveAll s (r :: rest) = sfArriveAll (sfArrive s r) rest := rfl
    rw [hstep, harr, ih { s with waiters := r :: s.waiters } hc hi]
    simp [List.append_assoc]

/-- C7: N concurrent requests for the same uncached key collapse to
exactly one live-tier call, and when that single call completes every
requester receives its result. -/
theorem single_flight_per_key (rids : List Nat) (h : rids ≠ []) :
    (sfArriveAll sfInit rids).liveCalls = 1 ∧
    ∀ v r, r ∈ rids →
      (r, v) ∈ (sfComplete (sfArriveAll sfInit rids) v).delivered := by
  match rids, h with
  | r :: rest, _ =>
    have h1 : sfArrive sfInit r =
        { cached := none, inflight := true, waiters := [r], liveCalls := 1,
          delivered := [] } := rfl
    have h2 : sfArriveAll sfInit (r :: rest) =
        sfArriveAll (sfArrive sfInit r) rest := rfl
    rw [h2, h1, sfArriveAll_joins_waiters rest _ rfl rfl]
    refine ⟨rfl, ?_⟩
    intro v q hq
    simp only [sfComplete, List.map_append, List.mem_append, List.mem_map,
      List.mem_reverse]
    rcases List.mem_cons.mp hq with rfl | hmem
    · left
      right
      exact ⟨q, by simp, rfl⟩
    · left
      left
      exact ⟨q, hmem, rfl⟩

/-- C7 witness: three concurrent requesters 7, 8, 9 on the uncached key
trigger exactly one live call, and requester 8 receives the completed
value 42. -/
theorem single_flight_witness :
    (sfArriveAll sfInit [7, 8, 9]).liveCalls = 1 ∧
    (8, 42) ∈ (sfComplete (sfArriveAll sfInit [7, 8, 9]) 42).delivered :=
  ⟨(single_flight_per_key [7, 8, 9] (by simp)).1,
   (single_flight_per_key [7, 8, 9] (by simp)).2 42 8 (by simp)⟩

/-- C8 (code bug): urgency 1 is documented as strictly more severe than
urgency 3, yet `getPriorityColor` renders priority 1 with the green
(calm) badge classes and priority 3 with the red (alarm) classes — the
color coding inverts the documented severity order. -/
theorem priority_color_inverts_documented_severity :
    moreSevere 1 3 ∧
    getPriorityColor 1 = "bg-green-500/20 text-green-400" ∧
    getPriorityColor 3 = "bg-red-500/20 text-red-400" :=
  ⟨by unfold moreSevere; omega, rfl, rfl⟩

/-- C9: an input whose JavaScript-trimmed form is empty never produces a
chat request — the guard in `sendMessage` returns before the pipeline
can be invoked. -/
theorem empty_input_never_sent (user : FrontendUser) (msg : String)
    (loading : Bool) (h : jsTrim msg = "") :
    sendMessage user msg loading = none := by
  simp [sendMessage, h]

/-- C9 witness: a whitespace-only message trims to empty and is not
sent. -/
theorem empty_input_never_sent_witness :
    jsTrim "   " = "" ∧
    sendMessage ⟨"u1", 24, 67⟩ "   " false = none :=
  ⟨rfl, empty_input_never_sent ⟨"u1", 24, 67⟩ "   " false rfl⟩

/-- C10: every request the chat page actually sends carries
`lang = "en"` and the signed-in user's registered coordinates and id,
independent of the message's language or content. -/
theorem chat_request_carries_en_and_registered_coords
    (user : FrontendUser) (msg : String) (loading : Bool) (req : ChatRequest)
    (h : sendMessage user msg loading = some req) :
    req.lang = "en" ∧ req.lat = user.lat ∧ req.lon = user.lon ∧
    req.userid = user.user_id := by
  unfold sendMessage at h
  split at h
  · cases h
  · cases h
    exact ⟨rfl, rfl, rfl, rfl⟩

/-- C10 witness: a concrete user and message produce a request with
lang "en" and the user's registered coordinates. -/
theorem chat_request_coords_witness :
    (buildChatRequest ⟨"u2", 31, 74⟩ (jsTrim "help me")).lang = "en" ∧
    (buildChatRequest ⟨"u2", 31, 74⟩ (jsTrim "help me")).lat = 31 ∧
    (buildChatRequest ⟨"u2", 31, 74⟩ (jsTrim "help me")).lon = 74 ∧
    (buildChatRequest ⟨"u2", 31, 74⟩ (jsTrim "help me")).userid = "u2" :=
  chat_request_carries_en_and_registered_coords ⟨"u2", 31, 74⟩ "help me" false _ rfl

end AlertMate
